import Mathlib

/-!
The two USB string descriptors of the VU-meter rack, `VuRack/name.c`.

The file `name.c` holds no function: it is four preprocessor constants and two statically
initialised records.  The development below embeds the constants and the two
initialisers, with the C conversions to the fixed-width fields made explicit
(`% 2 ^ 8` for the length and type bytes, `% 2 ^ 16` for the code units), and then
states the properties of the specification over them.
-/

namespace VuRack

/-! ## Fixed-width conversions of C -/

/-- Conversion of a non-negative C `int` value to `uint8_t`. -/
def uint8 (v : Nat) : Nat := v % 2 ^ 8

/-- Conversion of a non-negative C `int` value to `uint16_t`. -/
def uint16 (v : Nat) : Nat := v % 2 ^ 16

/-- Value of a C character constant such as `'B'`: an `int` holding the code of the
character in the (ASCII) execution character set. -/
def char_const (c : Char) : Nat := c.toNat

/-! ## The record type -/

/-- Modelled from the spec: `struct usb_string_descriptor_struct` is declared in
`usb_names.h`, which is not among the sources.  Section 6 of the specification gives
its layout: a `uint8` total length at offset 0, a `uint8` descriptor type at offset 1
and a `uint16[N]` payload from offset 2.  The fields carry the names of the Teensy core
declaration. -/
structure usb_string_descriptor_struct where
  /-- Offset 0, `uint8_t`: byte count of the whole descriptor. -/
  bLength : Nat
  /-- Offset 1, `uint8_t`: descriptor type tag. -/
  bDescriptorType : Nat
  /-- Offset 2, `uint16_t[]`: the code units, as many as the initialiser lists. -/
  wString : List Nat
deriving DecidableEq, Repr

/-! ## The constants of `name.c` -/

/-- Macro `#define MIDI_NAME   {'B','C','A',' ','V','U','M'}`: the initialiser list of
the product name, one character constant per code unit. -/
def MIDI_NAME : List Char := ['B','C','A',' ','V','U','M']

/-- Macro `#define MIDI_NAME_LEN  7`: the declared character count of the product name. -/
def MIDI_NAME_LEN : Nat := 7

/-- Macro
`#define MIDI_MANUF_NAME   {'B','L','U','E',' ','C','A','T',' ','A','U','D','I','O'}`:
the initialiser list of the manufacturer name. -/
def MIDI_MANUF_NAME : List Char := ['B','L','U','E',' ','C','A','T',' ','A','U','D','I','O']

/-- Macro `#define MIDI_MANUF_NAME_LEN  14`: the declared character count of the
manufacturer name. -/
def MIDI_MANUF_NAME_LEN : Nat := 14

/-- The record `usb_string_product_name`, initialised in `name.c` with
`{ 2 + MIDI_NAME_LEN * 2, 3, MIDI_NAME }`.  Each initialiser is converted to the type of
its field; the flexible array member gets one element per listed constant. -/
def usb_string_product_name : usb_string_descriptor_struct :=
  { bLength := uint8 (2 + MIDI_NAME_LEN * 2)
    bDescriptorType := uint8 3
    wString := MIDI_NAME.map (fun c => uint16 (char_const c)) }

/-- The record `usb_string_manufacturer_name`, initialised in `name.c` with
`{ 2 + MIDI_MANUF_NAME_LEN * 2, 3, MIDI_MANUF_NAME }`. -/
def usb_string_manufacturer_name : usb_string_descriptor_struct :=
  { bLength := uint8 (2 + MIDI_MANUF_NAME_LEN * 2)
    bDescriptorType := uint8 3
    wString := MIDI_MANUF_NAME.map (fun c => uint16 (char_const c)) }

/-- The initialiser pattern shared by the two records of `name.c`, with the declared
character count `len` and the listed code units `name` left open:
`{ 2 + len * 2, 3, name }`. -/
def descriptor_init (len : Nat) (name : List Nat) : usb_string_descriptor_struct :=
  { bLength := uint8 (2 + len * 2)
    bDescriptorType := uint8 3
    wString := name.map uint16 }

/-! ## UTF-16 and the wire layout, as the specification describes them -/

/-- Modelled from the spec: the UTF-16 code units of one character (one unit below
`0x10000`, a surrogate pair above).  `name.c` has no encoder. -/
def utf16_encode_char (c : Char) : List Nat :=
  if c.toNat < 0x10000 then [c.toNat]
  else [0xD800 + (c.toNat - 0x10000) / 0x400, 0xDC00 + (c.toNat - 0x10000) % 0x400]

/-- Modelled from the spec: the UTF-16 code units of a character sequence. -/
def utf16_encode_chars : List Char → List Nat
  | [] => []
  | c :: cs => utf16_encode_char c ++ utf16_encode_chars cs

/-- Modelled from the spec: the UTF-16 code units of a string. -/
def utf16_encode (s : String) : List Nat := utf16_encode_chars s.toList

/-- Modelled from the spec: decoding of a sequence of UTF-16 code units; `none` on an
unpaired surrogate or a value that is no 16-bit unit.  `name.c` has no decoder. -/
def utf16_decode_chars : List Nat → Option (List Char)
  | [] => some []
  | [u] =>
    if u < 0xD800 ∨ (0xE000 ≤ u ∧ u < 0x10000) then some [Char.ofNat u] else none
  | u :: v :: rest =>
    if u < 0xD800 ∨ (0xE000 ≤ u ∧ u < 0x10000) then
      (utf16_decode_chars (v :: rest)).map (fun cs => Char.ofNat u :: cs)
    else if 0xD800 ≤ u ∧ u < 0xDC00 ∧ 0xDC00 ≤ v ∧ v < 0xE000 then
      (utf16_decode_chars rest).map
        (fun cs => Char.ofNat (0x10000 + (u - 0xD800) * 0x400 + (v - 0xDC00)) :: cs)
    else none

/-- Modelled from the spec: decoding of a payload to text. -/
def utf16_decode (units : List Nat) : Option String :=
  (utf16_decode_chars units).map String.mk

/-- Modelled from the spec: "encoding a string to this layout", that is length byte
`2 + 2 * N`, type byte 3 and the `N` UTF-16 code units of the string. -/
def encode_descriptor (s : String) : usb_string_descriptor_struct :=
  { bLength := uint8 (2 + 2 * (utf16_encode s).length)
    bDescriptorType := 3
    wString := utf16_encode s }

/-- Modelled from the spec: "decoding the payload back to text". -/
def decode_payload (d : usb_string_descriptor_struct) : Option String :=
  utf16_decode d.wString

/-- The two bytes of a 16-bit code unit, low byte first. -/
def le_bytes (u : Nat) : List Nat := [u % 256, u / 256]

/-- Modelled from the spec: the byte image of a record (section 6): the length byte,
the type byte, then every code unit as two bytes, low byte first.  In the program this
is the memory image the compiler lays out; no function of `name.c` produces it. -/
def serialise (d : usb_string_descriptor_struct) : List Nat :=
  d.bLength :: d.bDescriptorType :: (d.wString.map le_bytes).flatten

/-- Modelled from the spec: the invariant check of section 8,
`total_length == 2 + 2 * len(payload)`.  `name.c` performs no check. -/
def invariant_check (d : usb_string_descriptor_struct) : Bool :=
  d.bLength == 2 + 2 * d.wString.length

/-! ## General facts about the model -/

theorem uint8_of_lt {v : Nat} (h : v < 256) : uint8 v = v := by
  unfold uint8; omega

theorem descriptor_init_wString_length (len : Nat) (name : List Nat) :
    (descriptor_init len name).wString.length = name.length := by
  simp [descriptor_init]

theorem flatten_le_bytes_length (units : List Nat) :
    ((units.map le_bytes).flatten).length = 2 * units.length := by
  induction units with
  | nil => rfl
  | cons u us ih => simp [le_bytes, ih]; omega

/-- The byte image always has two header bytes and two bytes per code unit. -/
theorem serialise_length (d : usb_string_descriptor_struct) :
    (serialise d).length = 2 + 2 * d.wString.length := by
  unfold serialise
  rw [List.length_cons, List.length_cons, flatten_le_bytes_length]; omega

theorem char_toNat_valid (c : Char) :
    c.toNat < 0xD800 ∨ (0xDFFF < c.toNat ∧ c.toNat < 0x110000) := c.valid

theorem utf16_decode_chars_unit (u : Nat) (rest : List Nat)
    (h : u < 0xD800 ∨ (0xE000 ≤ u ∧ u < 0x10000)) :
    utf16_decode_chars (u :: rest) =
      (utf16_decode_chars rest).map (fun cs => Char.ofNat u :: cs) := by
  cases rest with
  | nil => simp [utf16_decode_chars, h]
  | cons v rest => simp [utf16_decode_chars, h]

theorem utf16_decode_chars_pair (u v : Nat) (rest : List Nat)
    (hu : 0xD800 ≤ u ∧ u < 0xDC00) (hv : 0xDC00 ≤ v ∧ v < 0xE000) :
    utf16_decode_chars (u :: v :: rest) =
      (utf16_decode_chars rest).map
        (fun cs => Char.ofNat (0x10000 + (u - 0xD800) * 0x400 + (v - 0xDC00)) :: cs) := by
  have h1 : ¬ (u < 0xD800 ∨ (0xE000 ≤ u ∧ u < 0x10000)) := by omega
  have h2 : 0xD800 ≤ u ∧ u < 0xDC00 ∧ 0xDC00 ≤ v ∧ v < 0xE000 := by omega
  rw [utf16_decode_chars, if_neg h1, if_pos h2]

/-- Decoding inverts encoding on every character sequence. -/
theorem utf16_decode_encode_chars (cs : List Char) :
    utf16_decode_chars (utf16_encode_chars cs) = some cs := by
  induction cs with
  | nil => rfl
  | cons c cs ih =>
    have hv := char_toNat_valid c
    by_cases hc : c.toNat < 0x10000
    · have hu : c.toNat < 0xD800 ∨ (0xE000 ≤ c.toNat ∧ c.toNat < 0x10000) := by omega
      simp only [utf16_encode_chars, utf16_encode_char, if_pos hc, List.singleton_append]
      rw [utf16_decode_chars_unit _ _ hu, ih, Char.ofNat_toNat]
      rfl
    · have hu : 0xD800 ≤ 0xD800 + (c.toNat - 0x10000) / 0x400 ∧
          0xD800 + (c.toNat - 0x10000) / 0x400 < 0xDC00 := by omega
      have hl : 0xDC00 ≤ 0xDC00 + (c.toNat - 0x10000) % 0x400 ∧
          0xDC00 + (c.toNat - 0x10000) % 0x400 < 0xE000 := by omega
      have hn : 0x10000 + (0xD800 + (c.toNat - 0x10000) / 0x400 - 0xD800) * 0x400 +
          (0xDC00 + (c.toNat - 0x10000) % 0x400 - 0xDC00) = c.toNat := by omega
      simp only [utf16_encode_chars, utf16_encode_char, if_neg hc, List.cons_append,
        List.nil_append]
      rw [utf16_decode_chars_pair _ _ _ hu hl, ih, hn, Char.ofNat_toNat]
      rfl

/-- Decoding inverts encoding on every string. -/
theorem utf16_decode_encode (s : String) : utf16_decode (utf16_encode s) = some s := by
  simp [utf16_decode, utf16_encode, utf16_decode_encode_chars]

/-- The check of section 8 accepts a record built by the initialiser pattern exactly
when the payload has at most 126 units and the declared count agrees with the payload
length modulo 128. -/
theorem invariant_check_descriptor_init (n : Nat) (payload : List Nat) :
    invariant_check (descriptor_init n payload) = true ↔
      payload.length ≤ 126 ∧ n % 128 = payload.length := by
  simp only [invariant_check, descriptor_init, uint8, List.length_map, beq_iff_eq]
  omega

/-- Both records of `name.c` are instances of the shared initialiser pattern. -/
theorem records_are_descriptor_init :
    usb_string_product_name = descriptor_init MIDI_NAME_LEN (MIDI_NAME.map char_const) ∧
    usb_string_manufacturer_name =
      descriptor_init MIDI_MANUF_NAME_LEN (MIDI_MANUF_NAME.map char_const) := by
  decide

/-! ## The properties of the specification -/

/-- C1: the product-name record has total length 16 and descriptor type 3, and its
payload is exactly 7 code units, which decode to the string "BCA VUM". -/
theorem product_name_descriptor_contents :
    usb_string_product_name.bLength = 16 ∧
    usb_string_product_name.bDescriptorType = 3 ∧
    usb_string_product_name.wString.length = 7 ∧
    decode_payload usb_string_product_name = some "BCA VUM" := by
  decide

/-- C2: the manufacturer-name record has total length 30 and descriptor type 3, and its
payload is exactly 14 code units, which decode to the string "BLUE CAT AUDIO". -/
theorem manufacturer_name_descriptor_contents :
    usb_string_manufacturer_name.bLength = 30 ∧
    usb_string_manufacturer_name.bDescriptorType = 3 ∧
    usb_string_manufacturer_name.wString.length = 14 ∧
    decode_payload usb_string_manufacturer_name = some "BLUE CAT AUDIO" := by
  decide

/-- C3: in each of the two records the length field is the value of `2 + count * 2` for
the declared count, it equals `2 + 2 *` the number of code units present in the payload
(so the check of section 8 accepts the record), and the declared count equals the
element count of the literal. -/
theorem declared_count_matches_literal :
    (usb_string_product_name.bLength = uint8 (2 + MIDI_NAME_LEN * 2) ∧
      usb_string_product_name.bLength = 2 + 2 * usb_string_product_name.wString.length ∧
      MIDI_NAME_LEN = MIDI_NAME.length ∧
      usb_string_product_name.wString.length = MIDI_NAME.length ∧
      invariant_check usb_string_product_name = true) ∧
    (usb_string_manufacturer_name.bLength = uint8 (2 + MIDI_MANUF_NAME_LEN * 2) ∧
      usb_string_manufacturer_name.bLength =
        2 + 2 * usb_string_manufacturer_name.wString.length ∧
      MIDI_MANUF_NAME_LEN = MIDI_MANUF_NAME.length ∧
      usb_string_manufacturer_name.wString.length = MIDI_MANUF_NAME.length ∧
      invariant_check usb_string_manufacturer_name = true) := by
  decide

/-- C4: the byte image of each record starts with a byte equal to the number of bytes of
the image, followed by the type byte 3; the image of the product record is exactly
`[16, 3, 0x42,0, 0x43,0, 0x41,0, 0x20,0, 0x56,0, 0x55,0, 0x4D,0]`. -/
theorem serialise_length_is_first_byte :
    ((serialise usb_string_product_name)[0]? =
        some (serialise usb_string_product_name).length ∧
      (serialise usb_string_product_name)[1]? = some 3) ∧
    ((serialise usb_string_manufacturer_name)[0]? =
        some (serialise usb_string_manufacturer_name).length ∧
      (serialise usb_string_manufacturer_name)[1]? = some 3) ∧
    serialise usb_string_product_name =
      [16, 3, 0x42, 0, 0x43, 0, 0x41, 0, 0x20, 0, 0x56, 0, 0x55, 0, 0x4D, 0] ∧
    serialise usb_string_manufacturer_name =
      [30, 3, 0x42, 0, 0x4C, 0, 0x55, 0, 0x45, 0, 0x20, 0, 0x43, 0, 0x41, 0, 0x54, 0,
        0x20, 0, 0x41, 0, 0x55, 0, 0x44, 0, 0x49, 0, 0x4F, 0] := by
  decide

/-- C5: round trip: encoding "BCA VUM" and "BLUE CAT AUDIO" into the descriptor layout
gives exactly the two records of `name.c`, and decoding the payload of each record gives
the string back. -/
theorem encode_decode_round_trip :
    (encode_descriptor "BCA VUM" = usb_string_product_name ∧
      decode_payload usb_string_product_name = some "BCA VUM" ∧
      decode_payload (encode_descriptor "BCA VUM") = some "BCA VUM") ∧
    (encode_descriptor "BLUE CAT AUDIO" = usb_string_manufacturer_name ∧
      decode_payload usb_string_manufacturer_name = some "BLUE CAT AUDIO" ∧
      decode_payload (encode_descriptor "BLUE CAT AUDIO") = some "BLUE CAT AUDIO") := by
  decide

/-- C6, as stated, fails: a record declaring 135 characters over the 7 code units of
"BCA VUM" stores the length byte `272 % 256 = 16` and passes the check although
`135 ≠ 7`. -/
theorem mismatch_undetected_135_7 :
    (MIDI_NAME.map char_const).length = 7 ∧ (135 : Nat) ≠ 7 ∧
    (descriptor_init 135 (MIDI_NAME.map char_const)).bLength = 16 ∧
    invariant_check (descriptor_init 135 (MIDI_NAME.map char_const)) = true := by
  decide

/-- C6, amended: a record built by the initialiser pattern with declared count `n` over
a payload of `m ≠ n` code units fails the check unless `n = m + 128 * k` for some
`k ≥ 1` with `m ≤ 126` (the 8-bit length field wraps onto the true length); in
particular every mismatch with `n < m + 128`, hence every mismatch whose length
expression fits the 8-bit field, is detected. -/
theorem mismatch_detected_unless_wrapped (n : Nat) (payload : List Nat)
    (hne : n ≠ payload.length) :
    (invariant_check (descriptor_init n payload) = false ↔
      ¬ ∃ k, 0 < k ∧ n = payload.length + 128 * k ∧ payload.length ≤ 126) ∧
    (n < payload.length + 128 → invariant_check (descriptor_init n payload) = false) ∧
    (2 + n * 2 < 256 → invariant_check (descriptor_init n payload) = false) := by
  have key := invariant_check_descriptor_init n payload
  have hiff : invariant_check (descriptor_init n payload) = false ↔
      ¬ ∃ k, 0 < k ∧ n = payload.length + 128 * k ∧ payload.length ≤ 126 := by
    rw [← Bool.not_eq_true, key]
    constructor
    · rintro h ⟨k, hk, hn, hm⟩
      exact h ⟨hm, by omega⟩
    · rintro h ⟨hm, hn⟩
      exact h ⟨n / 128, by omega, by omega, hm⟩
  refine ⟨hiff, ?_, ?_⟩
  · intro hlt
    rw [← Bool.not_eq_true, key]
    omega
  · intro hlt
    rw [← Bool.not_eq_true, key]
    omega

/-- Witness of the amended C6: declared count 8 over the 7 code units of "BCA VUM". -/
theorem mismatch_detected_unless_wrapped_witness :
    (8 : Nat) ≠ (MIDI_NAME.map char_const).length ∧
    ((invariant_check (descriptor_init 8 (MIDI_NAME.map char_const)) = false ↔
      ¬ ∃ k, 0 < k ∧ 8 = (MIDI_NAME.map char_const).length + 128 * k ∧
        (MIDI_NAME.map char_const).length ≤ 126) ∧
    (8 < (MIDI_NAME.map char_const).length + 128 →
      invariant_check (descriptor_init 8 (MIDI_NAME.map char_const)) = false) ∧
    (2 + 8 * 2 < 256 →
      invariant_check (descriptor_init 8 (MIDI_NAME.map char_const)) = false)) :=
  ⟨by decide, mismatch_detected_unless_wrapped 8 (MIDI_NAME.map char_const) (by decide)⟩

/-- C7: no payload holds a null terminator or is cut short: every code unit of both
payloads is non-zero, the product payload has exactly `MIDI_NAME_LEN = 7` code units and
the manufacturer payload exactly `MIDI_MANUF_NAME_LEN = 14`, and the last code units are
those of `M` and `O`. -/
theorem payloads_unterminated_and_complete :
    ((∀ u ∈ usb_string_product_name.wString, u ≠ 0) ∧
      usb_string_product_name.wString.length = MIDI_NAME_LEN ∧ MIDI_NAME_LEN = 7 ∧
      usb_string_product_name.wString.getLast? = some (char_const 'M')) ∧
    ((∀ u ∈ usb_string_manufacturer_name.wString, u ≠ 0) ∧
      usb_string_manufacturer_name.wString.length = MIDI_MANUF_NAME_LEN ∧
      MIDI_MANUF_NAME_LEN = 14 ∧
      usb_string_manufacturer_name.wString.getLast? = some (char_const 'O')) := by
  decide

/-- C8: every code unit of both payloads is below 128, every character of "BCA VUM" and
of "BLUE CAT AUDIO" encodes to exactly one code unit, and the high byte of every
serialised code unit (the bytes at the odd offsets from 3 on) is 0. -/
theorem payloads_are_ascii :
    ((∀ u ∈ usb_string_product_name.wString, u < 128) ∧
      (∀ c ∈ "BCA VUM".toList, (utf16_encode_char c).length = 1) ∧
      (utf16_encode "BCA VUM").length = "BCA VUM".length ∧
      (∀ u ∈ usb_string_product_name.wString, le_bytes u = [u, 0]) ∧
      (∀ i, i < usb_string_product_name.wString.length →
        (serialise usb_string_product_name)[3 + 2 * i]? = some 0)) ∧
    ((∀ u ∈ usb_string_manufacturer_name.wString, u < 128) ∧
      (∀ c ∈ "BLUE CAT AUDIO".toList, (utf16_encode_char c).length = 1) ∧
      (utf16_encode "BLUE CAT AUDIO").length = "BLUE CAT AUDIO".length ∧
      (∀ u ∈ usb_string_manufacturer_name.wString, le_bytes u = [u, 0]) ∧
      (∀ i, i < usb_string_manufacturer_name.wString.length →
        (serialise usb_string_manufacturer_name)[3 + 2 * i]? = some 0)) := by
  decide

/-- C9: for both records the length expression `2 + LEN * 2` is below 256, so the
value stored in the 8-bit length field, the expression modulo `2 ^ 8`, is the exact
integer `2 + 2 * LEN`. -/
theorem length_field_does_not_wrap :
    (2 + MIDI_NAME_LEN * 2 < 256 ∧
      (2 + MIDI_NAME_LEN * 2) % 2 ^ 8 = 2 + 2 * MIDI_NAME_LEN ∧
      usb_string_product_name.bLength = 2 + 2 * MIDI_NAME_LEN) ∧
    (2 + MIDI_MANUF_NAME_LEN * 2 < 256 ∧
      (2 + MIDI_MANUF_NAME_LEN * 2) % 2 ^ 8 = 2 + 2 * MIDI_MANUF_NAME_LEN ∧
      usb_string_manufacturer_name.bLength = 2 + 2 * MIDI_MANUF_NAME_LEN) := by
  decide

end VuRack
